import Mathlib

/-!
Verification of the Rancher cloud provider facade
(cluster-autoscaler/cloudprovider/rancher/rancher_cloud_provider.go).

The facade forwards to a backend manager (RancherManager) whose source is
not part of the visible tree; its cache, lookup, refresh and cleanup
operations are modelled from the specification (a cached index mapping
node names to pool ids, rebuilt wholesale on refresh, released on cleanup).
Everything at the facade level (NodeGroupForNode, NodeGroups, the optional
capabilities, GetResourceLimiter, GPULabel, GetAvailableGPUTypes, Cleanup,
Refresh, the two builders) is embedded directly from the Go source.
Go (value, error) return pairs become products with an Option for the
error slot; a Go nil interface value becomes none.
-/

/-- Embedding of the cached node record the manager hands back: the fields of
it the facade reads are NodeName, ID and NodePoolID. -/
structure RancherNode where
  NodeName : String
  ID : String
  NodePoolID : String
deriving DecidableEq, Repr

/-- Modelled from the spec: the Cached Index owned by the manager, a mapping
from node identity to owning pool id and the set of pool ids backing the
group handles; rebuilt wholesale on each refresh. -/
structure CachedIndex where
  nodes : List RancherNode
  groupIds : List String
deriving DecidableEq, Repr

/-- Modelled from the spec: the backend manager state, holding the current
Cached Index generation and whether Cleanup has already released the
resources the manager holds. -/
structure RancherManager where
  cache : CachedIndex
  cleaned : Bool
deriving DecidableEq, Repr

/-- Embedding of rancherNodeGroup: a lightweight handle carrying the shared
manager reference and the backend pool id. -/
structure rancherNodeGroup where
  manager : RancherManager
  id : String
deriving DecidableEq, Repr

/-- Modelled from the spec: the externally supplied Resource Limiter,
an immutable bounds object (min and max aggregate resources), opaque to
the facade beyond passthrough. -/
structure ResourceLimiter where
  minLimits : List (String × Int)
  maxLimits : List (String × Int)
deriving DecidableEq, Repr

/-- Embedding of rancherCloudProvider: owns one manager and one resource
limiter. -/
structure rancherCloudProvider where
  manager : RancherManager
  resourceLimiter : ResourceLimiter
deriving DecidableEq, Repr

/-- Embedding of the part of a kubernetes v1.Node the facade reads: its
name. -/
structure KubeNode where
  Name : String
deriving DecidableEq, Repr

/-- Modelled from the spec: the error-kind tag of an AutoscalerError, so the
shared capability-unsupported sentinel is distinguishable from operational
errors. -/
inductive AutoscalerErrorType where
  | cloudProviderError
  | apiCallError
  | internalError
  | transientError
deriving DecidableEq, Repr

/-- Modelled from the spec: an AutoscalerError value, a kind tag plus a
message. -/
structure AutoscalerError where
  errorType : AutoscalerErrorType
  msg : String
deriving DecidableEq, Repr

/-- Modelled from the spec: cloudprovider.ErrNotImplemented, the single
shared capability-unsupported sentinel returned by every optional
operation a backend does not implement. -/
def ErrNotImplemented : AutoscalerError :=
  ⟨AutoscalerErrorType.internalError, "Not implemented"⟩

/-- Embedding of cloudprovider.PricingModel at the granularity the facade
uses it: the facade never produces one, so the type has no inhabitant. -/
inductive PricingModel where
deriving DecidableEq, Repr

/-- Embedding of the part of a kubernetes v1.Taint NewNodeGroup receives
(and ignores). -/
structure Taint where
  key : String
  value : String
  effect : String
deriving DecidableEq, Repr

/-- Modelled from the spec: the outcome of one backend pull attempted by the
manager during Refresh — either a fresh Cached Index or a communication
failure. -/
inductive RefreshOutcome where
  | success (idx : CachedIndex)
  | failure (msg : String)
deriving DecidableEq, Repr

/-- Embedding of the GPULabel package constant. -/
def GPULabel : String := "nodes.pkds.it/gpu-node"

/-- Modelled from the spec: cache lookup by kubernetes node name inside the
Cached Index. -/
def findNode (nodes : List RancherNode) (name : String) : Option RancherNode :=
  nodes.find? (fun rn => rn.NodeName == name)

/-- Modelled from the spec: RancherManager.GetCachedNodeForKubernetesNode —
resolve a node name against the Cached Index only (never a live backend
call); a node unknown to the cache yields an error. -/
def RancherManager.GetCachedNodeForKubernetesNode (m : RancherManager)
    (name : String) : Except String RancherNode :=
  match findNode m.cache.nodes name with
  | some rn => Except.ok rn
  | none => Except.error ("node " ++ name ++ " not found")

/-- Modelled from the spec: RancherManager.GetCachedNodeGroups — enumerate
the group handles of the current Cached Index. -/
def RancherManager.GetCachedNodeGroups (m : RancherManager) :
    Except String (List rancherNodeGroup) :=
  Except.ok (m.cache.groupIds.map (fun i => ⟨m, i⟩))

/-- Modelled from the spec: RancherManager.Refresh — on success atomically
install the freshly pulled Cached Index as one generation swap; on failure
report the error and leave the previous generation authoritative. -/
def RancherManager.Refresh (m : RancherManager) (o : RefreshOutcome) :
    RancherManager × Option String :=
  match o with
  | RefreshOutcome.success idx => (⟨idx, m.cleaned⟩, none)
  | RefreshOutcome.failure e => (m, some e)

/-- Modelled from the spec: RancherManager.Cleanup — release the resources
the manager holds exactly once; a later call is a no-op, not an error. -/
def RancherManager.Cleanup (m : RancherManager) : RancherManager × Option String :=
  if m.cleaned then (m, none) else (⟨m.cache, true⟩, none)

/-- Embedding of BuildRancherCloudProvider: packs the manager and the
resource limiter into a provider; never fails. -/
def BuildRancherCloudProvider (manager : RancherManager)
    (resourceLimiter : ResourceLimiter) : Except String rancherCloudProvider :=
  Except.ok ⟨manager, resourceLimiter⟩

/-- Embedding of config.AutoscalingOptions at the granularity BuildRancher
uses it: the builder never reads it. -/
structure AutoscalingOptions where
deriving DecidableEq, Repr

/-- Embedding of cloudprovider.NodeGroupDiscoveryOptions at the granularity
BuildRancher uses it: the builder never reads it. -/
structure NodeGroupDiscoveryOptions where
deriving DecidableEq, Repr

/-- Result of running BuildRancher: either the process is aborted by
klog.Fatalf, or a ready provider is returned. -/
inductive BuildOutcome where
  | fatal (msg : String)
  | ready (p : rancherCloudProvider)
deriving DecidableEq, Repr

/-- Embedding of BuildRancher. BuildRancherManager is not in the visible
tree, so its outcome (a manager, or a construction failure) is passed in;
each failure becomes a fatal abort via klog.Fatalf. -/
def BuildRancher (opts : AutoscalingOptions) (d : NodeGroupDiscoveryOptions)
    (managerResult : Except String RancherManager) (rl : ResourceLimiter) :
    BuildOutcome :=
  match managerResult with
  | Except.error e => BuildOutcome.fatal ("Failed to create Rancher Manager: " ++ e)
  | Except.ok manager =>
    match BuildRancherCloudProvider manager rl with
    | Except.error e =>
        BuildOutcome.fatal ("Failed to create Rancher cloud provider: " ++ e)
    | Except.ok provider => BuildOutcome.ready provider

/-- Embedding of the body of rancherCloudProvider.NodeGroups as a function
of the manager call result: an enumeration failure is logged and degraded
to an empty (nil) slice; the signature carries no error slot at all. -/
def NodeGroupsFromManagerResult (r : Except String (List rancherNodeGroup)) :
    List rancherNodeGroup :=
  match r with
  | Except.error _ => []
  | Except.ok ngs => ngs

/-- Embedding of rancherCloudProvider.NodeGroups. -/
def rancherCloudProvider.NodeGroups (cp : rancherCloudProvider) :
    List rancherNodeGroup :=
  NodeGroupsFromManagerResult cp.manager.GetCachedNodeGroups

/-- Embedding of rancherCloudProvider.NodeGroupForNode: forward a lookup
error; error on an empty cached pool id with a message naming the node;
otherwise hand back a group handle with the cached pool id. -/
def rancherCloudProvider.NodeGroupForNode (cp : rancherCloudProvider)
    (node : KubeNode) : Option rancherNodeGroup × Option String :=
  match cp.manager.GetCachedNodeForKubernetesNode node.Name with
  | Except.error e => (none, some e)
  | Except.ok rancherNode =>
    if rancherNode.NodePoolID = "" then
      (none, some ("missing node pool name for node " ++ rancherNode.NodeName
        ++ " (" ++ rancherNode.ID ++ ")"))
    else
      (some ⟨cp.manager, rancherNode.NodePoolID⟩, none)

/-- Embedding of rancherCloudProvider.Pricing: the capability-unsupported
sentinel, unconditionally. -/
def rancherCloudProvider.Pricing (cp : rancherCloudProvider) :
    Option PricingModel × AutoscalerError :=
  (none, ErrNotImplemented)

/-- Embedding of rancherCloudProvider.GetAvailableMachineTypes: the
capability-unsupported sentinel, unconditionally. -/
def rancherCloudProvider.GetAvailableMachineTypes (cp : rancherCloudProvider) :
    Option (List String) × Option AutoscalerError :=
  (none, some ErrNotImplemented)

/-- Embedding of rancherCloudProvider.NewNodeGroup: the
capability-unsupported sentinel, unconditionally, whatever the inputs. -/
def rancherCloudProvider.NewNodeGroup (cp : rancherCloudProvider)
    (machineType : String) (labels : List (String × String))
    (systemLabels : List (String × String)) (taints : List Taint)
    (extraResources : List (String × Int)) :
    Option rancherNodeGroup × Option AutoscalerError :=
  (none, some ErrNotImplemented)

/-- Embedding of rancherCloudProvider.GetResourceLimiter: returns the stored
limiter and a nil error. -/
def rancherCloudProvider.GetResourceLimiter (cp : rancherCloudProvider) :
    ResourceLimiter × Option String :=
  (cp.resourceLimiter, none)

/-- Embedding of the rancherCloudProvider GPULabel method: returns the
GPULabel package constant. -/
def rancherCloudProvider.gpuLabel (cp : rancherCloudProvider) : String :=
  GPULabel

/-- Embedding of rancherCloudProvider.GetAvailableGPUTypes: returns the nil
map, an empty set of GPU types. -/
def rancherCloudProvider.GetAvailableGPUTypes (cp : rancherCloudProvider) :
    List String :=
  []

/-- Embedding of rancherCloudProvider.Cleanup: forwards to the manager
Cleanup; state change threaded explicitly. -/
def rancherCloudProvider.Cleanup (cp : rancherCloudProvider) :
    rancherCloudProvider × Option String :=
  (⟨(cp.manager.Cleanup).1, cp.resourceLimiter⟩, (cp.manager.Cleanup).2)

/-- Embedding of rancherCloudProvider.Refresh: forwards to the manager
Refresh; state change threaded explicitly. -/
def rancherCloudProvider.Refresh (cp : rancherCloudProvider)
    (o : RefreshOutcome) : rancherCloudProvider × Option String :=
  (⟨(cp.manager.Refresh o).1, cp.resourceLimiter⟩, (cp.manager.Refresh o).2)

/-- A state-changing operation of the provider lifetime after construction:
one Refresh attempt (with its backend outcome) or one Cleanup. -/
inductive LifecycleOp where
  | refresh (o : RefreshOutcome)
  | cleanup
deriving DecidableEq, Repr

/-- Apply one lifecycle operation to the provider state. -/
def applyOp (cp : rancherCloudProvider) : LifecycleOp → rancherCloudProvider
  | LifecycleOp.refresh o => (cp.Refresh o).1
  | LifecycleOp.cleanup => (cp.Cleanup).1

/-- Apply a whole sequence of lifecycle operations in order. -/
def applyOps (cp : rancherCloudProvider) (ops : List LifecycleOp) :
    rancherCloudProvider :=
  ops.foldl applyOp cp

lemma applyOp_resourceLimiter (cp : rancherCloudProvider) (op : LifecycleOp) :
    (applyOp cp op).resourceLimiter = cp.resourceLimiter := by
  cases op with
  | refresh o => rfl
  | cleanup => rfl

lemma applyOps_resourceLimiter (ops : List LifecycleOp)
    (cp : rancherCloudProvider) :
    (applyOps cp ops).resourceLimiter = cp.resourceLimiter := by
  induction ops generalizing cp with
  | nil => rfl
  | cons op ops ih =>
      rw [applyOps, List.foldl_cons]
      rw [show List.foldl applyOp (applyOp cp op) ops = applyOps (applyOp cp op) ops from rfl]
      rw [ih, applyOp_resourceLimiter]

/-- A concrete resource limiter used in concrete scenarios. -/
def rlEx : ResourceLimiter := ⟨[("cpu", 1)], [("cpu", 64)]⟩

/-- A provider whose Cached Index holds no entry for any node. -/
def cpEmptyCache : rancherCloudProvider := ⟨⟨⟨[], []⟩, false⟩, rlEx⟩

/-- C1 counterexample: for node worker-9, which is not cached at all (so in
particular not cached with an empty pool id), NodeGroupForNode returns a nil
group together with a non-nil error — refuting that (nil, error) occurs only
for nodes cached with an empty pool id, and exhibiting a nil-group return
that is neither of the two ways the claim allows. -/
theorem nodeGroupForNode_uncached_counterexample :
    (cpEmptyCache.NodeGroupForNode ⟨"worker-9"⟩).1 = none ∧
    (cpEmptyCache.NodeGroupForNode ⟨"worker-9"⟩).2 =
      some "node worker-9 not found" ∧
    findNode cpEmptyCache.manager.cache.nodes "worker-9" = none :=
  ⟨rfl, rfl, rfl⟩

/-- C1 (amended): NodeGroupForNode never returns (nil, no-error); it returns
a nil group exactly when it returns a non-nil error, and that happens exactly
when the cache lookup fails (node unknown to the manager) or the cached entry
has an empty pool id — those are the only ways it returns a nil group. -/
theorem nodeGroupForNode_nil_iff_error (cp : rancherCloudProvider)
    (node : KubeNode) :
    (¬ ((cp.NodeGroupForNode node).1 = none ∧
        (cp.NodeGroupForNode node).2 = none)) ∧
    ((cp.NodeGroupForNode node).1 = none ↔
      (cp.NodeGroupForNode node).2 ≠ none) ∧
    ((cp.NodeGroupForNode node).1 = none ↔
      (∃ e, cp.manager.GetCachedNodeForKubernetesNode node.Name =
        Except.error e) ∨
      (∃ rn, cp.manager.GetCachedNodeForKubernetesNode node.Name =
        Except.ok rn ∧ rn.NodePoolID = "")) := by
  cases h : cp.manager.GetCachedNodeForKubernetesNode node.Name with
  | error e =>
      simp [rancherCloudProvider.NodeGroupForNode, h]
  | ok rn =>
      by_cases hp : rn.NodePoolID = "" <;>
        simp [rancherCloudProvider.NodeGroupForNode, h, hp]

/-- C2: a node whose cached entry has an empty pool id yields a nil group and
a data-integrity error naming the node, of the form
"missing node pool name for node NAME (ID)". -/
theorem nodeGroupForNode_missing_pool_error (cp : rancherCloudProvider)
    (node : KubeNode) (rn : RancherNode)
    (h1 : cp.manager.GetCachedNodeForKubernetesNode node.Name = Except.ok rn)
    (h2 : rn.NodePoolID = "") :
    cp.NodeGroupForNode node =
      (none, some ("missing node pool name for node " ++ rn.NodeName ++ " ("
        ++ rn.ID ++ ")")) := by
  simp [rancherCloudProvider.NodeGroupForNode, h1, h2]

/-- The worker-8 node record of the spec scenario: cached, empty pool id. -/
def w8node : RancherNode := ⟨"worker-8", "c-abc:m-w8", ""⟩

/-- A provider caching worker-8 with an empty pool id. -/
def w8cp : rancherCloudProvider := ⟨⟨⟨[w8node], ["pool-a"]⟩, false⟩, rlEx⟩

/-- C2 witness: the spec scenario — worker-8 cached with an empty pool id
yields (nil, error "missing node pool name for node worker-8 (c-abc:m-w8)"). -/
theorem nodeGroupForNode_missing_pool_error_witness :
    w8cp.NodeGroupForNode ⟨"worker-8"⟩ =
      (none, some "missing node pool name for node worker-8 (c-abc:m-w8)") :=
  nodeGroupForNode_missing_pool_error w8cp ⟨"worker-8"⟩ w8node rfl rfl

/-- C3: a node whose cached entry has a non-empty pool id p resolves to a
group handle with id p and a nil error; moreover every group a
NodeGroupForNode call ever resolves has a non-empty id. -/
theorem nodeGroupForNode_resolves_nonempty_pool (cp : rancherCloudProvider)
    (node : KubeNode) (rn : RancherNode)
    (h1 : cp.manager.GetCachedNodeForKubernetesNode node.Name = Except.ok rn)
    (h2 : rn.NodePoolID ≠ "") :
    cp.NodeGroupForNode node = (some ⟨cp.manager, rn.NodePoolID⟩, none) ∧
    (∀ cp2 : rancherCloudProvider, ∀ node2 : KubeNode,
      ∀ g : rancherNodeGroup,
      (cp2.NodeGroupForNode node2).1 = some g → g.id ≠ "") := by
  constructor
  · simp [rancherCloudProvider.NodeGroupForNode, h1, h2]
  · intro cp2 node2 g hg
    cases h : cp2.manager.GetCachedNodeForKubernetesNode node2.Name with
    | error e =>
        simp [rancherCloudProvider.NodeGroupForNode, h] at hg
    | ok rn2 =>
        by_cases hp : rn2.NodePoolID = ""
        · simp [rancherCloudProvider.NodeGroupForNode, h, hp] at hg
        · simp [rancherCloudProvider.NodeGroupForNode, h, hp] at hg
          rw [← hg]
          exact hp

/-- The worker-7 node record of the spec scenario: cached, pool id pool-a. -/
def w7node : RancherNode := ⟨"worker-7", "c-abc:m-w7", "pool-a"⟩

/-- A provider caching worker-7 with pool id pool-a. -/
def w7cp : rancherCloudProvider := ⟨⟨⟨[w7node], ["pool-a"]⟩, false⟩, rlEx⟩

/-- C3 witness: the spec scenario — worker-7 cached with pool id pool-a
resolves to a group with id pool-a and no error. -/
theorem nodeGroupForNode_resolves_nonempty_pool_witness :
    w7cp.NodeGroupForNode ⟨"worker-7"⟩ =
      (some ⟨w7cp.manager, "pool-a"⟩, none) :=
  (nodeGroupForNode_resolves_nonempty_pool w7cp ⟨"worker-7"⟩ w7node rfl
    (by decide)).1

/-- C4: a provider built by BuildRancherCloudProvider returns, from every
reachable state of its lifetime (any sequence of Refresh and Cleanup
operations), exactly the resource limiter supplied at construction together
with a nil error. -/
theorem getResourceLimiter_returns_constructed (m : RancherManager)
    (rl : ResourceLimiter) (cp : rancherCloudProvider)
    (h : BuildRancherCloudProvider m rl = Except.ok cp)
    (ops : List LifecycleOp) :
    (applyOps cp ops).GetResourceLimiter = (rl, none) := by
  have hcp : cp = ⟨m, rl⟩ := by
    simpa [BuildRancherCloudProvider] using h.symm
  subst hcp
  unfold rancherCloudProvider.GetResourceLimiter
  rw [applyOps_resourceLimiter]

/-- A concrete manager used in concrete scenarios. -/
def mEx : RancherManager := ⟨⟨[w7node], ["pool-a"]⟩, false⟩

/-- A concrete lifecycle: a failed refresh, a successful refresh installing a
new index, then cleanup. -/
def opsEx : List LifecycleOp :=
  [LifecycleOp.refresh (RefreshOutcome.failure "backend down"),
   LifecycleOp.refresh (RefreshOutcome.success ⟨[], ["pool-b"]⟩),
   LifecycleOp.cleanup]

/-- C4 witness: after the concrete lifecycle opsEx, GetResourceLimiter still
returns the limiter supplied at construction and a nil error. -/
theorem getResourceLimiter_returns_constructed_witness :
    (applyOps ⟨mEx, rlEx⟩ opsEx).GetResourceLimiter = (rlEx, none) :=
  getResourceLimiter_returns_constructed mEx rlEx ⟨mEx, rlEx⟩ rfl opsEx

/-- C5: every optional capability operation — Pricing,
GetAvailableMachineTypes and NewNodeGroup — returns the one shared
capability-unsupported sentinel ErrNotImplemented, for every provider state
and every input; being total functions they cannot panic. -/
theorem optional_capabilities_return_unsupported_sentinel
    (cp : rancherCloudProvider) (machineType : String)
    (labels systemLabels : List (String × String)) (taints : List Taint)
    (extraResources : List (String × Int)) :
    cp.Pricing = (none, ErrNotImplemented) ∧
    cp.GetAvailableMachineTypes = (none, some ErrNotImplemented) ∧
    cp.NewNodeGroup machineType labels systemLabels taints extraResources =
      (none, some ErrNotImplemented) :=
  ⟨rfl, rfl, rfl⟩

/-- C6: when the cached node-group enumeration fails with any error, the
NodeGroups body returns the empty list — the same result an enumeration
succeeding with zero groups produces — and its return type carries no error
slot, so failure is never signalled to the caller. -/
theorem nodeGroups_enumeration_failure_empty (e : String) :
    NodeGroupsFromManagerResult (Except.error e) = [] ∧
    NodeGroupsFromManagerResult (Except.error e) =
      NodeGroupsFromManagerResult (Except.ok []) :=
  ⟨rfl, rfl⟩

/-- C7: BuildRancher, for every configuration, manager construction outcome
and limiter, either aborts fatally or returns a ready provider whose manager
and limiter fields are exactly the constructed manager and the supplied
limiter — never a half-initialized instance. -/
theorem buildRancher_ready_or_fatal (opts : AutoscalingOptions)
    (d : NodeGroupDiscoveryOptions)
    (managerResult : Except String RancherManager) (rl : ResourceLimiter) :
    (∃ msg, BuildRancher opts d managerResult rl = BuildOutcome.fatal msg) ∨
    (∃ m, managerResult = Except.ok m ∧
      BuildRancher opts d managerResult rl = BuildOutcome.ready ⟨m, rl⟩) := by
  cases managerResult with
  | error e => exact Or.inl ⟨_, rfl⟩
  | ok m => exact Or.inr ⟨m, rfl, rfl⟩

/-- C8: Cleanup is idempotent — after a first call that returned no error, a
second Cleanup call leaves the provider unchanged and returns no error. -/
theorem cleanup_idempotent (cp : rancherCloudProvider)
    (h : (cp.Cleanup).2 = none) :
    ((cp.Cleanup).1).Cleanup = ((cp.Cleanup).1, none) := by
  unfold rancherCloudProvider.Cleanup RancherManager.Cleanup
  by_cases hc : cp.manager.cleaned
  · simp [hc]
  · simp [hc]

/-- C8 witness: on the concrete provider built from mEx, the first Cleanup
succeeds and the second call is a no-op returning no error. -/
theorem cleanup_idempotent_witness :
    (rancherCloudProvider.Cleanup ⟨mEx, rlEx⟩).2 = none ∧
    ((rancherCloudProvider.Cleanup ⟨mEx, rlEx⟩).1).Cleanup =
      ((rancherCloudProvider.Cleanup ⟨mEx, rlEx⟩).1, none) :=
  ⟨rfl, cleanup_idempotent ⟨mEx, rlEx⟩ rfl⟩

/-- C9: a failed Refresh returns the failure as an error value (the embedding
is a total function, so no panic), leaves the provider state — in particular
the previously installed Cached Index — unchanged, and every subsequent read
(NodeGroups, NodeGroupForNode) observes exactly what it observed before. -/
theorem refresh_failure_preserves_cache (cp : rancherCloudProvider)
    (e : String) :
    cp.Refresh (RefreshOutcome.failure e) = (cp, some e) ∧
    ((cp.Refresh (RefreshOutcome.failure e)).1).NodeGroups = cp.NodeGroups ∧
    (∀ node, ((cp.Refresh (RefreshOutcome.failure e)).1).NodeGroupForNode node
      = cp.NodeGroupForNode node) :=
  ⟨rfl, rfl, fun _ => rfl⟩

/-- C10: GetAvailableGPUTypes returns the empty set on every provider state,
even though the backend defines the GPU detection label
nodes.pkds.it/gpu-node returned by the GPULabel method. -/
theorem getAvailableGPUTypes_empty (cp : rancherCloudProvider) :
    cp.GetAvailableGPUTypes = [] ∧ cp.gpuLabel = GPULabel ∧
    GPULabel = "nodes.pkds.it/gpu-node" :=
  ⟨rfl, rfl, rfl⟩
